import Mathlib

set_option maxHeartbeats 1000000

namespace K7

/-! Shallow embedding of the k7 sandbox lifecycle controller
(`src/k7/core/core.py` and `src/k7/core/models.py`).

Python strings are modelled as Lean `String` where only equality and
concatenation matter, and as `List Char` where character-level processing
occurs (the env-file parser and the resource-quantity parser).  Python
`str.strip`/`lower`/`upper` are modelled on the ASCII range, which covers
every character the code compares against.  Exceptions raised by the
Kubernetes client are modelled as explicit `ApiResp` values carried by an
environment record; the rendered message `str(e)` of an exception is
modelled as the `msg` field of that value. -/

/-- Whitespace characters stripped by Python `str.strip()` (ASCII range). -/
def pySpaceChars : List Char := [' ', Char.ofNat 9, Char.ofNat 10, Char.ofNat 13, Char.ofNat 11, Char.ofNat 12]

/-- Whether `c` is Python whitespace. -/
def isPySpace (c : Char) : Bool := pySpaceChars.contains c

/-- Strip characters satisfying `p` from both ends of a character list. -/
def pyStripBy (p : Char → Bool) (s : List Char) : List Char :=
  ((s.dropWhile p).reverse.dropWhile p).reverse

/-- Python `s.strip()` on a character list. -/
def pyStrip (s : List Char) : List Char := pyStripBy isPySpace s

/-- Python `s.strip(cs)` on a character list: strip any of `cs` from both ends. -/
def pyStripSet (cs : List Char) (s : List Char) : List Char :=
  pyStripBy (fun c => cs.contains c) s

/-- Python `s.strip()` on a `String`. -/
def pyStripS (s : String) : String := String.mk (pyStrip s.data)

/-- ASCII model of Python `str.lower` on one character. -/
def pyLowerChar (c : Char) : Char :=
  if 'A' ≤ c ∧ c ≤ 'Z' then Char.ofNat (c.toNat + 32) else c

/-- ASCII model of Python `str.upper` on one character. -/
def pyUpperChar (c : Char) : Char :=
  if 'a' ≤ c ∧ c ≤ 'z' then Char.ofNat (c.toNat - 32) else c

/-- ASCII model of Python `str.upper` on a `String`. -/
def pyUpperS (s : String) : String := String.mk (s.data.map pyUpperChar)

/-- Digit-run parser backing the model of Python `int()`: digits with single
underscores allowed between digits.  `lastDigit` records whether the previous
character was a digit. -/
def pyDigitsGo : List Char → Nat → Bool → Option Nat
  | [], acc, lastDigit => if lastDigit then some acc else none
  | c :: rest, acc, lastDigit =>
    if c.isDigit then pyDigitsGo rest (acc * 10 + (c.toNat - 48)) true
    else if c = Char.ofNat 95 && lastDigit then pyDigitsGo rest acc false
    else none

/-- Model of Python `int(s)`: strip whitespace, optional sign, decimal digits
with underscore separators; `none` when `int()` would raise `ValueError`. -/
def pyInt (s : List Char) : Option Int :=
  match pyStrip s with
  | [] => none
  | c :: rest =>
    if c = '+' then (pyDigitsGo rest 0 false).map Int.ofNat
    else if c = '-' then (pyDigitsGo rest 0 false).map (fun n => -(Int.ofNat n))
    else (pyDigitsGo (c :: rest) 0 false).map Int.ofNat

/-- Whether `suffix` is a suffix of `s`. -/
def endsWithC (s suffix : List Char) : Bool := suffix.isSuffixOf s

/-- Python `int(s)` where a `ValueError` propagates: `error` carries the model
of the exception message. -/
def intOrMsg (s : List Char) : Except String Int :=
  match pyInt s with
  | some n => Except.ok n
  | none => Except.error ("invalid literal for int with base 10: " ++ String.mk s)

/-- The normalisation `value.strip().lower()` at the top of
`K7Core._parse_resource_value`. -/
def normQuantity (value : String) : List Char := (pyStrip value.data).map pyLowerChar

/-- `K7Core._parse_resource_value`: parse a Kubernetes quantity string.
Empty string returns 0; otherwise strip and lowercase, then check the
suffixes `m`, `gi`, `mi`, `ki` in the source order (`Gi` scales by 1024,
`Mi` is the base, `Ki` floor-divides by 1024); a bare value falls back to
`int()` with `ValueError` mapped to 0.  In the suffixed branches `int()`
is unprotected, so a `ValueError` there propagates (`Except.error`). -/
def parseResourceValue (value : String) : Except String Int :=
  if value = "" then Except.ok 0
  else if endsWithC (normQuantity value) ['m'] then intOrMsg (normQuantity value).dropLast
  else if endsWithC (normQuantity value) ['g', 'i'] then
    (intOrMsg (normQuantity value).dropLast.dropLast).map (fun n => n * 1024)
  else if endsWithC (normQuantity value) ['m', 'i'] then
    intOrMsg (normQuantity value).dropLast.dropLast
  else if endsWithC (normQuantity value) ['k', 'i'] then
    (intOrMsg (normQuantity value).dropLast.dropLast).map (fun n => Int.fdiv n 1024)
  else Except.ok ((pyInt (normQuantity value)).getD 0)

/-- Resource keys checked by `K7Core._validate_limits`. -/
def trackedKey (k : String) : Bool :=
  k = "cpu" || k = "memory" || k = "ephemeral-storage"

/-- Loop body of `K7Core._validate_limits` over the limits mapping
(modelled as an association list in insertion order). -/
def validateLimitsGo : List (String × String) → Except String Bool
  | [] => Except.ok true
  | (k, v) :: rest =>
    if trackedKey k then
      match parseResourceValue v with
      | Except.error e => Except.error e
      | Except.ok n => if n ≤ 0 then Except.ok false else validateLimitsGo rest
    else validateLimitsGo rest

/-- `K7Core._validate_limits`: empty mapping is valid; otherwise every value
under a tracked key must parse to a positive quantity. -/
def validateLimits (limits : List (String × String)) : Except String Bool :=
  if limits.isEmpty then Except.ok true else validateLimitsGo limits

/-! Env-file parsing (`create_sandbox`, the secret-building block). -/

/-- Line-break characters recognised by Python `str.splitlines`. -/
def lineBreakChars : List Char :=
  [Char.ofNat 10, Char.ofNat 13, Char.ofNat 11, Char.ofNat 12,
   Char.ofNat 28, Char.ofNat 29, Char.ofNat 30, Char.ofNat 0x85,
   Char.ofNat 0x2028, Char.ofNat 0x2029]

/-- Whether `c` is a Python line-break character. -/
def isLineBreak (c : Char) : Bool := lineBreakChars.contains c

/-- Collapse each CRLF pair to a single LF, so that the simple splitter below
matches Python `splitlines`, which treats a CRLF pair as one break. -/
def normalizeCRLF : List Char → List Char
  | [] => []
  | c :: rest =>
    if c = Char.ofNat 13 && rest.head? == some (Char.ofNat 10) then normalizeCRLF rest
    else c :: normalizeCRLF rest

/-- Split on single line-break characters; a trailing break yields no empty
final line, matching Python `splitlines`. -/
def splitSimpleGo : List Char → List Char → List (List Char)
  | [], cur => [cur.reverse]
  | c :: rest, cur =>
    if isLineBreak c then
      cur.reverse :: (if rest.isEmpty then [] else splitSimpleGo rest [])
    else splitSimpleGo rest (c :: cur)

/-- Model of Python `str.splitlines`. -/
def pySplitlines (s : List Char) : List (List Char) :=
  if s.isEmpty then [] else splitSimpleGo (normalizeCRLF s) []

/-- Python `line.split(sep, 1)` for a one-character separator, assuming the
separator occurs: the part before the first `=` and the part after it. -/
def splitEq : List Char → List Char × List Char
  | [] => ([], [])
  | c :: rest =>
    if c = Char.ofNat 61 then ([], rest)
    else
      let p := splitEq rest
      (c :: p.1, p.2)

/-- Python dict assignment `m[k] = v` on an insertion-ordered association
list: an existing key keeps its position and gets the new value, a fresh key
is appended. -/
def dictInsert (m : List (List Char × List Char)) (k v : List Char) :
    List (List Char × List Char) :=
  if m.any (fun p => p.1 = k) then m.map (fun p => if p.1 = k then (p.1, v) else p)
  else m ++ [(k, v)]

/-- Strip surrounding double quotes, then surrounding single quotes, from a
parsed env value (`value.strip().strip(dq).strip(sq)` minus the whitespace
strip, which is applied by the caller). -/
def stripQuotes (v : List Char) : List Char :=
  pyStripSet [Char.ofNat 39] (pyStripSet [Char.ofNat 34] v)

/-- One iteration of the env-file parsing loop in `create_sandbox`: strip the
line; skip it when empty, a `#` comment, or without `=`; split on the first
`=`; strip the key; strip whitespace then quotes from the value; record the
pair when the key is non-empty. -/
def parseEnvLine (acc : List (List Char × List Char)) (line : List Char) :
    List (List Char × List Char) :=
  if (pyStrip line).isEmpty || (pyStrip line).head? == some (Char.ofNat 35) ||
      !((pyStrip line).contains (Char.ofNat 61)) then acc
  else if (pyStrip (splitEq (pyStrip line)).1).isEmpty then acc
  else dictInsert acc (pyStrip (splitEq (pyStrip line)).1)
    (stripQuotes (pyStrip (splitEq (pyStrip line)).2))

/-- The env-file parser of `create_sandbox` applied to a whole file content. -/
def parseEnvContent (content : List Char) : List (List Char × List Char) :=
  (pySplitlines content).foldl parseEnvLine []

/-- Render a finite map as `K=V` lines joined by LF (the round-trip direction
stated by the spec, not code of the repository). -/
def joinNL : List (List Char) → List Char
  | [] => []
  | [l] => l
  | l :: ls => l ++ Char.ofNat 10 :: joinNL ls

/-- One rendered `K=V` line. -/
def envLine (p : List Char × List Char) : List Char :=
  p.1 ++ Char.ofNat 61 :: p.2

/-- Render an env map as the file content `K=V` per line. -/
def renderEnv (pairs : List (List Char × List Char)) : List Char :=
  joinNL (pairs.map envLine)

/-- Well-formedness of a key for the env round-trip: non-empty, free of
line breaks, free of `=`, not starting with `#`, and whitespace-trimmed at
both ends. -/
def goodKeyB (k : List Char) : Bool :=
  !k.isEmpty && k.all (fun c => !isLineBreak c) && !k.contains (Char.ofNat 61) &&
  !(k.head? == some (Char.ofNat 35)) &&
  (match k.head? with | none => true | some c => !isPySpace c) &&
  (match k.getLast? with | none => true | some c => !isPySpace c)

/-- Well-formedness of a value for the env round-trip: free of line breaks
and whitespace-trimmed at both ends. -/
def goodValB (v : List Char) : Bool :=
  v.all (fun c => !isLineBreak c) &&
  (match v.head? with | none => true | some c => !isPySpace c) &&
  (match v.getLast? with | none => true | some c => !isPySpace c)

/-! Data model (`models.py`). -/

/-- `SandboxConfig` from `models.py`.  The `namespace` field is called `ns`
(`namespace` is a Lean keyword); `limits` is the insertion-ordered mapping
(`None` is normalised to `{}` by `__post_init__`, so it is a plain list);
the dataclass declares no `runtime_class_name` field, which matters in
`buildDeployment` below. -/
structure SandboxConfig where
  name : String
  image : String
  ns : String := "default"
  env_file : Option String := none
  egress_whitelist : Option (List String) := none
  limits : List (String × String) := []
  before_script : String := ""
  pod_non_root : Bool := false
  container_non_root : Bool := false
  cap_drop : Option (List String) := none
  cap_add : Option (List String) := none
deriving DecidableEq

/-- `OperationResult` from `models.py` (the `data` field is omitted: no
modelled operation sets it). -/
structure OperationResult where
  success : Bool
  message : String := ""
  error : String := ""
deriving DecidableEq

/-- `ExecResult` from `models.py`. -/
structure ExecResult where
  exit_code : Int
  stdout : String
  stderr : String
  duration_ms : Nat
deriving DecidableEq

/-! Built cluster objects (the resource-builder part of `create_sandbox`). -/

/-- A network-policy peer: either an `ipBlock` CIDR or a namespace selector
combined with a pod selector. -/
inductive NPPeer where
  | ipBlock (cidr : String)
  | nsPodSelector (nsLabels podLabels : List (String × String))
deriving DecidableEq

/-- A network-policy port entry. -/
structure NPPort where
  protocol : String
  port : Nat
deriving DecidableEq

/-- One egress rule: destination peers and an optional port list (absent
means no port restriction). -/
structure NPEgressRule where
  toPeers : List NPPeer
  ports : Option (List NPPort) := none
deriving DecidableEq

/-- A built NetworkPolicy object. -/
structure NetworkPolicy where
  name : String
  ns : String
  podSelector : List (String × String)
  policyTypes : List String
  egress : Option (List NPEgressRule) := none
  ingress : Option (List Unit) := none
deriving DecidableEq

/-- A readiness probe (exec action). -/
structure Probe where
  command : List String
  initialDelaySeconds : Nat
  periodSeconds : Nat
  timeoutSeconds : Option Nat := none
  failureThreshold : Option Nat := none
deriving DecidableEq

/-- Container-level security context. -/
structure CSecCtx where
  allowPrivilegeEscalation : Bool
  runAsNonRoot : Option Bool
  runAsUser : Option Nat
  seccompProfile : String
  capDrop : Option (List String)
  capAdd : Option (List String)
deriving DecidableEq

/-- Pod-level security context (only emitted when `pod_non_root`). -/
structure PodSecCtx where
  runAsNonRoot : Bool
  runAsUser : Nat
  runAsGroup : Nat
  fsGroup : Nat
deriving DecidableEq

/-- The single sandbox container. -/
structure Container where
  name : String
  image : String
  command : List String
  resourceLimits : Option (List (String × String))
  resourceRequests : Option (List (String × String))
  securityContext : CSecCtx
  envFrom : List String
  readinessProbe : Probe
deriving DecidableEq

/-- The pod spec of the sandbox workload. -/
structure PodSpec where
  containers : List Container
  runtimeClassName : String
  restartPolicy : String
  securityContext : Option PodSecCtx
deriving DecidableEq

/-- The built Deployment object. -/
structure Deployment where
  name : String
  ns : String
  labels : List (String × String)
  replicas : Nat
  selectorMatchLabels : List (String × String)
  templateLabels : List (String × String)
  podSpec : PodSpec
deriving DecidableEq

/-- The sentinel file path used by the before-script handshake. -/
def beforeDoneFile : String := "/tmp/k7_before_done"

/-- Main container command: `sleep 365d` without a before-script, else the
strict-mode wrapper that clears the sentinel, runs the script, touches the
sentinel and execs `sleep 365d`. -/
def buildMainCmd (cfg : SandboxConfig) : String :=
  if cfg.before_script = "" then "sleep 365d"
  else
    "set -euo pipefail; rm -f " ++ beforeDoneFile ++ "; " ++
    pyStripS cfg.before_script ++ "; touch " ++ beforeDoneFile ++ "; exec sleep 365d"

/-- Built capability drop list: `cap_drop` absent means drop `ALL`; a present
list is uppercased, and an empty result is emitted as absent
(`drop=drop_caps if drop_caps else None`). -/
def builtCapDrop (cfg : SandboxConfig) : Option (List String) :=
  let dc := match cfg.cap_drop with
    | none => ["ALL"]
    | some l => l.map pyUpperS
  if dc.isEmpty then none else some dc

/-- Built capability add list: uppercased `cap_add`, empty emitted as absent. -/
def builtCapAdd (cfg : SandboxConfig) : Option (List String) :=
  let ac := (cfg.cap_add.getD []).map pyUpperS
  if ac.isEmpty then none else some ac

/-- Readiness probe: sentinel test with thresholds when a before-script is
present, a trivially true exec otherwise. -/
def buildProbe (cfg : SandboxConfig) : Probe :=
  if cfg.before_script = "" then
    { command := ["/bin/sh", "-c", "true"], initialDelaySeconds := 0, periodSeconds := 2 }
  else
    { command := ["/bin/sh", "-c", "test -f " ++ beforeDoneFile],
      initialDelaySeconds := 1, periodSeconds := 2,
      timeoutSeconds := some 2, failureThreshold := some 30 }

/-- Python truthiness of `config.env_file` (`None` and the empty string are
falsy). -/
def envFileSet (cfg : SandboxConfig) : Bool :=
  match cfg.env_file with
  | none => false
  | some s => !(s == "")

/-- The sandbox container built by `create_sandbox`. -/
def buildContainer (cfg : SandboxConfig) : Container :=
  { name := "sandbox"
    image := cfg.image
    command := ["/bin/sh", "-c", buildMainCmd cfg]
    resourceLimits := if cfg.limits.isEmpty then none else some cfg.limits
    resourceRequests := if cfg.limits.isEmpty then none else some cfg.limits
    securityContext :=
      { allowPrivilegeEscalation := false
        runAsNonRoot := if cfg.container_non_root then some true else none
        runAsUser := if cfg.container_non_root then some 65532 else none
        seccompProfile := "RuntimeDefault"
        capDrop := builtCapDrop cfg
        capAdd := builtCapAdd cfg }
    envFrom := if envFileSet cfg then [cfg.name ++ "-env"] else []
    readinessProbe := buildProbe cfg }

/-- The Deployment built by `create_sandbox`.  `runtimeClassName` is the
source expression `getattr(config, "runtime_class_name", None) or "kata"`;
the dataclass has no such field, so the getattr default applies and the
value is always `"kata"`.  Note the pod template labels carry only `app` and
`katakate.org/sandbox`; `runtime: kata` sits on the Deployment metadata. -/
def buildDeployment (cfg : SandboxConfig) : Deployment :=
  { name := cfg.name
    ns := cfg.ns
    labels := [("app", cfg.name), ("runtime", "kata"), ("katakate.org/sandbox", cfg.name)]
    replicas := 1
    selectorMatchLabels := [("app", cfg.name)]
    templateLabels := [("app", cfg.name), ("katakate.org/sandbox", cfg.name)]
    podSpec :=
      { containers := [buildContainer cfg]
        runtimeClassName := "kata"
        restartPolicy := "Always"
        securityContext :=
          if cfg.pod_non_root then some { runAsNonRoot := true, runAsUser := 65532, runAsGroup := 65532, fsGroup := 65532 }
          else none } }

/-- One egress rule per whitelisted CIDR: a single `ipBlock` peer, no ports. -/
def cidrRule (cidr : String) : NPEgressRule := { toPeers := [NPPeer.ipBlock cidr] }

/-- The trailing DNS rule: UDP/53 and TCP/53 to pods labelled
`k8s-app=kube-dns` in the namespace labelled
`kubernetes.io/metadata.name=kube-system`. -/
def dnsRule : NPEgressRule :=
  { toPeers := [NPPeer.nsPodSelector [("kubernetes.io/metadata.name", "kube-system")]
            [("k8s-app", "kube-dns")]]
    ports := some [{ protocol := "UDP", port := 53 }, { protocol := "TCP", port := 53 }] }

/-- The egress NetworkPolicy built by `create_sandbox` for a present
whitelist: per-CIDR rules in list order followed by the DNS rule. -/
def buildEgressPolicy (nm nsp : String) (wl : List String) : NetworkPolicy :=
  { name := nm ++ "-netpol"
    ns := nsp
    podSelector := [("katakate.org/sandbox", nm)]
    policyTypes := ["Egress"]
    egress := some (wl.map cidrRule ++ [dnsRule]) }

/-- The deny-all ingress NetworkPolicy always built by `create_sandbox`:
`policyTypes=[Ingress]` with an explicit empty `ingress` list. -/
def buildIngressPolicy (nm nsp : String) : NetworkPolicy :=
  { name := nm ++ "-deny-ingress"
    ns := nsp
    podSelector := [("katakate.org/sandbox", nm)]
    policyTypes := ["Ingress"]
    ingress := some [] }

/-! The lifecycle controller as a state machine over an environment of
cluster responses.  The trace records both emitted progress events and the
cluster API calls the controller performs, in order. -/

/-- Outcome of one Kubernetes API call: success, or an `ApiException` with
its HTTP status and rendered message. -/
inductive ApiResp where
  | ok
  | err (status : Nat) (msg : String)
deriving DecidableEq

/-- The three-way case distinction every `except ApiException` block of
`create_sandbox` makes: success, a 409 conflict, or any other error. -/
inductive RespView where
  | ok
  | conflict (msg : String)
  | other (status : Nat) (msg : String)
deriving DecidableEq

/-- Classify an API outcome the way the handlers test it
(`e.status == 409` / `e.status != 409`). -/
def respView : ApiResp → RespView
  | ApiResp.ok => RespView.ok
  | ApiResp.err s m => if s = 409 then RespView.conflict m else RespView.other s m

/-- Outcome of the init-wait polling loop: the pod became Ready, the 300 s
ceiling elapsed, or some exception was raised while polling. -/
inductive PollOutcome where
  | ready
  | timedOut
  | raised (msg : String)
deriving DecidableEq

/-- Observable events of a lifecycle-controller run: progress events (stage
and status) and cluster API calls with the bodies passed to them. -/
inductive Ev where
  | progress (stage : String) (status : String)
  | apiCreateSecret (name nsp : String) (data : List (List Char × List Char))
  | apiCreateDeployment (body : Deployment)
  | apiPollPods (selector : String)
  | apiCreateEgressPolicy (body : NetworkPolicy)
  | apiCreateIngressPolicy (body : NetworkPolicy)
  | delDeployment (name nsp : String)
  | delSecret (name nsp : String)
  | delNetpol (name nsp : String)
deriving DecidableEq

/-- Cluster responses consumed by one `create_sandbox` run. -/
structure ClusterEnv where
  envFileExists : Bool
  envFileContent : List Char
  createSecretResp : ApiResp
  createDeploymentResp : ApiResp
  pollOutcome : PollOutcome
  createEgressResp : ApiResp
  createIngressResp : ApiResp
deriving DecidableEq

/-- Final stage of `create_sandbox`: emit the completion event and return
the success result. -/
def completeStep (cfg : SandboxConfig) (acc : List Ev) : OperationResult × List Ev :=
  ({ success := true, message := "Sandbox " ++ cfg.name ++ " created successfully" },
   acc ++ [Ev.progress "complete" "success"])

/-- Ingress-deny stage: always create the deny-ingress policy; 409 is
idempotent success (emitting an `exists` event), other errors emit an
`error` event and fail. -/
def ingressStep (cfg : SandboxConfig) (env : ClusterEnv) (acc : List Ev) :
    OperationResult × List Ev :=
  match respView env.createIngressResp with
  | RespView.ok =>
    completeStep cfg (acc ++ [Ev.apiCreateIngressPolicy (buildIngressPolicy cfg.name cfg.ns)])
  | RespView.conflict _ =>
    completeStep cfg (acc ++ [Ev.apiCreateIngressPolicy (buildIngressPolicy cfg.name cfg.ns),
                              Ev.progress "network_lockdown" "exists"])
  | RespView.other _ m =>
    ({ success := false, error := "Failed to create ingress deny policy: " ++ m },
     acc ++ [Ev.apiCreateIngressPolicy (buildIngressPolicy cfg.name cfg.ns),
             Ev.progress "network_lockdown" "error"])

/-- Egress-lockdown stage: skipped when the whitelist is absent; otherwise
build and create the egress policy, treating 409 as success. -/
def egressStep (cfg : SandboxConfig) (env : ClusterEnv) (acc : List Ev) :
    OperationResult × List Ev :=
  match cfg.egress_whitelist with
  | none => ingressStep cfg env (acc ++ [Ev.progress "network_lockdown" "skipped"])
  | some wl =>
    match respView env.createEgressResp with
    | RespView.ok =>
      ingressStep cfg env
        (acc ++ [Ev.progress "network_lockdown" "applying",
                 Ev.apiCreateEgressPolicy (buildEgressPolicy cfg.name cfg.ns wl),
                 Ev.progress "network_lockdown" "done"])
    | RespView.conflict _ =>
      ingressStep cfg env
        (acc ++ [Ev.progress "network_lockdown" "applying",
                 Ev.apiCreateEgressPolicy (buildEgressPolicy cfg.name cfg.ns wl),
                 Ev.progress "network_lockdown" "done"])
    | RespView.other _ m =>
      ({ success := false, error := "Failed to create network policy: " ++ m },
       acc ++ [Ev.progress "network_lockdown" "applying",
               Ev.apiCreateEgressPolicy (buildEgressPolicy cfg.name cfg.ns wl)])

/-- Init-wait stage: skipped without a before-script; otherwise emit
`waiting`, poll the pods (the whole `try` block around the polling loop is
modelled by one poll observation whose outcome — Ready, timeout or any
raised exception — is discarded by the bare `except: pass`), then emit
`done` unconditionally. -/
def initWaitStep (cfg : SandboxConfig) (env : ClusterEnv) (acc : List Ev) :
    OperationResult × List Ev :=
  if cfg.before_script = "" then
    egressStep cfg env (acc ++ [Ev.progress "before_script" "skipped"])
  else
    egressStep cfg env
      (acc ++ Ev.progress "before_script" "waiting" ::
        (match env.pollOutcome with
         | PollOutcome.ready => [Ev.apiPollPods ("app=" ++ cfg.name)]
         | PollOutcome.timedOut => [Ev.apiPollPods ("app=" ++ cfg.name)]
         | PollOutcome.raised _ => [Ev.apiPollPods ("app=" ++ cfg.name)]) ++
        [Ev.progress "before_script" "done"])

/-- Workload-creation step: build the Deployment and create it; 409 returns
the `already exists` conflict result immediately, other errors fail; on
success emit `provisioning done` and continue. -/
def deployStep (cfg : SandboxConfig) (env : ClusterEnv) (acc : List Ev) :
    OperationResult × List Ev :=
  match respView env.createDeploymentResp with
  | RespView.ok =>
    initWaitStep cfg env
      (acc ++ [Ev.apiCreateDeployment (buildDeployment cfg), Ev.progress "provisioning" "done"])
  | RespView.conflict _ =>
    ({ success := false, error := "Sandbox " ++ cfg.name ++ " already exists" },
     acc ++ [Ev.apiCreateDeployment (buildDeployment cfg)])
  | RespView.other _ m =>
    ({ success := false, error := "Failed to create deployment: " ++ m },
     acc ++ [Ev.apiCreateDeployment (buildDeployment cfg)])

/-- Secret step: only entered when `env_file` is truthy and the file exists;
an empty parse is a validation failure; secret creation treats 409 as
success and fails on other errors. -/
def secretStep (cfg : SandboxConfig) (env : ClusterEnv) (acc : List Ev) :
    OperationResult × List Ev :=
  if envFileSet cfg && env.envFileExists then
    if (parseEnvContent env.envFileContent).isEmpty then
      ({ success := false, error := "env_file is empty or invalid; no variables parsed" }, acc)
    else
      match respView env.createSecretResp with
      | RespView.ok =>
        deployStep cfg env
          (acc ++ [Ev.apiCreateSecret (cfg.name ++ "-env") cfg.ns (parseEnvContent env.envFileContent)])
      | RespView.conflict _ =>
        deployStep cfg env
          (acc ++ [Ev.apiCreateSecret (cfg.name ++ "-env") cfg.ns (parseEnvContent env.envFileContent)])
      | RespView.other _ m =>
        ({ success := false, error := "Failed to create secret: " ++ m },
         acc ++ [Ev.apiCreateSecret (cfg.name ++ "-env") cfg.ns (parseEnvContent env.envFileContent)])
  else deployStep cfg env acc

/-- `K7Core.create_sandbox` over an environment of cluster responses.
Validation runs before the first progress event; a `ValueError` escaping
`_validate_limits` is caught by the outer handler, which emits an `error`
stage event and returns the exception message as the error. -/
def createSandbox (cfg : SandboxConfig) (env : ClusterEnv) : OperationResult × List Ev :=
  match validateLimits cfg.limits with
  | Except.error m => ({ success := false, error := m }, [Ev.progress "error" ""])
  | Except.ok false => ({ success := false, error := "Invalid resource limits" }, [])
  | Except.ok true => secretStep cfg env [Ev.progress "provisioning" "start"]

/-! Deletion (`K7Core._delete_sandbox_resources`). -/

/-- Cluster responses consumed by one `_delete_sandbox_resources` run. -/
structure DeleteEnv where
  delDeploymentResp : ApiResp
  delSecretResp : ApiResp
  delNetpolResp : ApiResp
  delIngressResp : ApiResp
deriving DecidableEq

/-- The `errors.append` behaviour of one delete attempt: nothing on success
or 404, the tagged message otherwise. -/
def delErr (tag : String) : ApiResp → List String
  | ApiResp.ok => []
  | ApiResp.err s m => if s = 404 then [] else [tag ++ m]

/-- All errors collected by the four-delete cascade, in source order. -/
def collectDeleteErrors (env : DeleteEnv) : List String :=
  delErr "deployment: " env.delDeploymentResp ++
  delErr "secret: " env.delSecretResp ++
  delErr "network policy: " env.delNetpolResp ++
  delErr "network policy deny-ingress: " env.delIngressResp

/-- `K7Core._delete_sandbox_resources`: four independent deletions (each 404
silently ignored), then failure with the semicolon-joined errors or
success. -/
def deleteSandboxResources (nm nsp : String) (env : DeleteEnv) :
    OperationResult × List Ev :=
  if (collectDeleteErrors env).isEmpty then
    ({ success := true, message := "Sandbox " ++ nm ++ " deleted successfully" },
     [Ev.delDeployment nm nsp, Ev.delSecret (nm ++ "-env") nsp,
      Ev.delNetpol (nm ++ "-netpol") nsp, Ev.delNetpol (nm ++ "-deny-ingress") nsp])
  else
    ({ success := false, error := String.intercalate "; " (collectDeleteErrors env) },
     [Ev.delDeployment nm nsp, Ev.delSecret (nm ++ "-env") nsp,
      Ev.delNetpol (nm ++ "-netpol") nsp, Ev.delNetpol (nm ++ "-deny-ingress") nsp])

/-- Which of a sandbox's four derived objects currently exist in the
cluster. -/
structure SBState where
  deploymentExists : Bool
  secretExists : Bool
  netpolExists : Bool
  ingressExists : Bool
deriving DecidableEq

/-- Fault-free cluster semantics of one delete call: deleting an existing
object succeeds, deleting a missing one raises 404. -/
def respOfExists (b : Bool) : ApiResp :=
  if b then ApiResp.ok else ApiResp.err 404 "Not Found"

/-- The delete responses a fault-free cluster in state `s` produces. -/
def envOfState (s : SBState) : DeleteEnv :=
  { delDeploymentResp := respOfExists s.deploymentExists
    delSecretResp := respOfExists s.secretExists
    delNetpolResp := respOfExists s.netpolExists
    delIngressResp := respOfExists s.ingressExists }

/-- Run `delete_sandbox` against a fault-free cluster in state `s`: the call
result together with the state afterwards (all four objects gone). -/
def applyDelete (nm nsp : String) (s : SBState) : OperationResult × SBState :=
  ((deleteSandboxResources nm nsp (envOfState s)).1,
   { deploymentExists := false, secretExists := false, netpolExists := false, ingressExists := false })

/-- Results of two successive `delete_sandbox` calls with the same arguments
against a fault-free cluster. -/
def deleteTwice (nm nsp : String) (s : SBState) : OperationResult × OperationResult :=
  let r1 := applyDelete nm nsp s
  let r2 := applyDelete nm nsp r1.2
  (r1.1, r2.1)

/-! Exec channel (`K7Core.exec_command`). -/

/-- The status fields of a pod the exec channel looks at. -/
structure PodM where
  name : String
  phase : String
deriving DecidableEq

/-- Outcome of the pod listing in `exec_command`: the list returned, or an
exception raised by the client. -/
inductive ListPodsOutcome where
  | pods (items : List PodM)
  | raised (msg : String)
deriving DecidableEq

/-- Outcome of the exec stream pump: demuxed stdout and stderr with the
final return code (absent when the stream reported none), or an exception
raised anywhere while streaming. -/
inductive StreamOutcome where
  | finished (stdoutData stderrData : String) (returncode : Option Int)
  | raised (msg : String)
deriving DecidableEq

/-- Environment consumed by one `exec_command` run; `elapsedMs` abstracts
the wall-clock duration measurement. -/
structure ExecEnv where
  readDeploymentResp : ApiResp
  listPods : ListPodsOutcome
  streamOutcome : StreamOutcome
  elapsedMs : Nat
deriving DecidableEq

/-- `K7Core.exec_command`: confirm the workload, resolve the first pod,
require phase Running, pump the exec stream; every exception is caught and
mapped to `ExecResult(exit_code=1, stdout="", stderr=str(e))`. -/
def execCommand (sandboxName command nsp : String) (env : ExecEnv) : ExecResult :=
  match env.readDeploymentResp with
  | ApiResp.err s m =>
    if s = 404 then
      { exit_code := 1, stdout := "", stderr := "Sandbox " ++ sandboxName ++ " not found",
        duration_ms := env.elapsedMs }
    else
      { exit_code := 1, stdout := "", stderr := "Failed to get deployment: " ++ m,
        duration_ms := env.elapsedMs }
  | ApiResp.ok =>
    match env.listPods with
    | ListPodsOutcome.raised m =>
      { exit_code := 1, stdout := "", stderr := m, duration_ms := env.elapsedMs }
    | ListPodsOutcome.pods [] =>
      { exit_code := 1, stdout := "", stderr := "No pods found for sandbox " ++ sandboxName,
        duration_ms := env.elapsedMs }
    | ListPodsOutcome.pods (p :: _) =>
      if p.phase ≠ "Running" then
        { exit_code := 1, stdout := "", stderr := "Pod is not running (status: " ++ p.phase ++ ")",
          duration_ms := env.elapsedMs }
      else
        match env.streamOutcome with
        | StreamOutcome.raised m =>
          { exit_code := 1, stdout := "", stderr := m, duration_ms := env.elapsedMs }
        | StreamOutcome.finished so se rc =>
          { exit_code := rc.getD 0, stdout := so, stderr := se, duration_ms := env.elapsedMs }

/-- Whether an `exec_command` environment drives the run into one of its
exception paths (missing workload, listing failure, no pods, non-Running
pod, stream failure). -/
def execFailPath (env : ExecEnv) : Bool :=
  match env.readDeploymentResp with
  | ApiResp.err _ _ => true
  | ApiResp.ok =>
    match env.listPods with
    | ListPodsOutcome.raised _ => true
    | ListPodsOutcome.pods [] => true
    | ListPodsOutcome.pods (p :: _) =>
      if p.phase ≠ "Running" then true
      else
        match env.streamOutcome with
        | StreamOutcome.raised _ => true
        | StreamOutcome.finished _ _ _ => false

/-! Trace projections used by the temporal claims. -/

/-- The stage of a progress event, `none` for API-call events. -/
def stageOf : Ev → Option String
  | Ev.progress st _ => some st
  | _ => none

/-- The stages of the progress events of a trace, in order. -/
def stageSeq (t : List Ev) : List String := t.filterMap stageOf

/-- Collapse adjacent duplicates. -/
def collapseAdj : List String → List String
  | [] => []
  | [a] => [a]
  | a :: b :: r => if a = b then collapseAdj (b :: r) else a :: collapseAdj (b :: r)

/-- The canonical stage order of a successful create. -/
def goodStages : List String := ["provisioning", "before_script", "network_lockdown", "complete"]

/-- A collapsed stage sequence is acceptable when it is a prefix of the
canonical order, or such a prefix followed by the terminal `error` stage. -/
def goodStageSeq (l : List String) : Bool :=
  l.isPrefixOf goodStages ||
  (l.dropLast.isPrefixOf goodStages && l.getLast? == some "error")

/-- Kinds of cluster-mutating or polling API calls made by `create_sandbox`. -/
inductive ApiKind where
  | secret
  | deployment
  | poll
  | egress
  | ingress
deriving DecidableEq

/-- The API kind of an event, `none` for progress and delete events. -/
def apiKindOf : Ev → Option ApiKind
  | Ev.apiCreateSecret _ _ _ => some ApiKind.secret
  | Ev.apiCreateDeployment _ => some ApiKind.deployment
  | Ev.apiPollPods _ => some ApiKind.poll
  | Ev.apiCreateEgressPolicy _ => some ApiKind.egress
  | Ev.apiCreateIngressPolicy _ => some ApiKind.ingress
  | _ => none

/-- The API-call kinds of a trace, in order. -/
def apiKinds (t : List Ev) : List ApiKind := t.filterMap apiKindOf

/-- Whether an event is one of the deletion API calls. -/
def isDeleteEv : Ev → Bool
  | Ev.delDeployment _ _ => true
  | Ev.delSecret _ _ => true
  | Ev.delNetpol _ _ => true
  | _ => false

/-- Boolean subsequence test on API-kind lists. -/
def kindsSubseq : List ApiKind → List ApiKind → Bool
  | [], _ => true
  | _ :: _, [] => false
  | a :: as, b :: bs => if a = b then kindsSubseq as bs else kindsSubseq (a :: as) bs

/-- The egress-policy bodies passed to the cluster in a trace. -/
def egressBodies (t : List Ev) : List NetworkPolicy :=
  t.filterMap fun e => match e with
    | Ev.apiCreateEgressPolicy b => some b
    | _ => none

/-- The deployment bodies passed to the cluster in a trace. -/
def deploymentBodies (t : List Ev) : List Deployment :=
  t.filterMap fun e => match e with
    | Ev.apiCreateDeployment b => some b
    | _ => none

/-! Helper lemmas about `createSandbox` runs. -/

/-- The outcome of the init-wait polling loop never influences the result or
the trace of a create (the bare `except: pass` swallows everything). -/
theorem pollIrrel (cfg : SandboxConfig) (fe : Bool) (fc : List Char) (sr dr er ir : ApiResp)
    (po : PollOutcome) :
    createSandbox cfg (ClusterEnv.mk fe fc sr dr po er ir) =
      createSandbox cfg (ClusterEnv.mk fe fc sr dr PollOutcome.ready er ir) := by
  unfold createSandbox secretStep deployStep initWaitStep egressStep ingressStep completeStep
  cases po <;> rfl

set_option maxHeartbeats 8000000 in
/-- Master characterisation of every `createSandbox` run: the collapsed
stage sequence is an acceptable prefix, the API calls occur in the canonical
order, no deletion is ever performed, and every egress policy passed to the
cluster is exactly the one built from the present whitelist. -/
theorem createTraceFacts (cfg : SandboxConfig) (env : ClusterEnv) :
    goodStageSeq (collapseAdj (stageSeq (createSandbox cfg env).2)) = true ∧
    kindsSubseq (apiKinds (createSandbox cfg env).2)
      [ApiKind.secret, ApiKind.deployment, ApiKind.poll, ApiKind.egress, ApiKind.ingress] = true ∧
    (createSandbox cfg env).2.all (fun e => !isDeleteEv e) = true ∧
    (cfg.egress_whitelist = none → egressBodies (createSandbox cfg env).2 = []) ∧
    (∀ wl, cfg.egress_whitelist = some wl →
      ∀ b ∈ egressBodies (createSandbox cfg env).2, b = buildEgressPolicy cfg.name cfg.ns wl) ∧
    (∀ b ∈ deploymentBodies (createSandbox cfg env).2, b = buildDeployment cfg) := by
  obtain ⟨fe, fc, sr, dr, po, er, ir⟩ := env
  rw [pollIrrel]
  rcases hv : validateLimits cfg.limits with m | b
  · simp only [createSandbox, hv]
    exact ⟨rfl, rfl, rfl, fun _ => rfl, fun wl _ b hb => absurd hb (List.not_mem_nil b),
      fun b hb => absurd hb (List.not_mem_nil b)⟩
  · cases b
    · simp only [createSandbox, hv]
      exact ⟨rfl, rfl, rfl, fun _ => rfl, fun wl _ b hb => absurd hb (List.not_mem_nil b),
        fun b hb => absurd hb (List.not_mem_nil b)⟩
    · simp only [createSandbox, hv]
      rcases hef : envFileSet cfg && fe with _ | _
      · rcases hdv : respView dr with _ | dm | ⟨ds, dm⟩
        · by_cases hbs : cfg.before_script = "" <;>
          rcases hew : cfg.egress_whitelist with _ | wl <;>
          rcases hev : respView er with _ | em2 | ⟨es, em2⟩ <;>
          rcases hiv : respView ir with _ | im2 | ⟨is2, im2⟩ <;>
          simp [secretStep, deployStep, initWaitStep, egressStep, ingressStep, completeStep,
            hef, hdv, hbs, hew, hev, hiv, stageSeq, stageOf, collapseAdj, goodStageSeq,
            goodStages, apiKinds, apiKindOf, kindsSubseq, isDeleteEv, egressBodies, deploymentBodies]
        · simp [secretStep, deployStep, hef, hdv, stageSeq, stageOf, collapseAdj, goodStageSeq,
            goodStages, apiKinds, apiKindOf, kindsSubseq, isDeleteEv, egressBodies, deploymentBodies]
        · simp [secretStep, deployStep, hef, hdv, stageSeq, stageOf, collapseAdj, goodStageSeq,
            goodStages, apiKinds, apiKindOf, kindsSubseq, isDeleteEv, egressBodies, deploymentBodies]
      · rcases hpe : (parseEnvContent fc).isEmpty with _ | _
        · rcases hsv : respView sr with _ | sm | ⟨ss, sm⟩
          · rcases hdv : respView dr with _ | dm | ⟨ds, dm⟩
            · by_cases hbs : cfg.before_script = "" <;>
              rcases hew : cfg.egress_whitelist with _ | wl <;>
              rcases hev : respView er with _ | em2 | ⟨es, em2⟩ <;>
              rcases hiv : respView ir with _ | im2 | ⟨is2, im2⟩ <;>
              simp [secretStep, deployStep, initWaitStep, egressStep, ingressStep, completeStep,
                hef, hpe, hsv, hdv, hbs, hew, hev, hiv, stageSeq, stageOf, collapseAdj,
                goodStageSeq, goodStages, apiKinds, apiKindOf, kindsSubseq, isDeleteEv, egressBodies, deploymentBodies]
            · simp [secretStep, deployStep, hef, hpe, hsv, hdv, stageSeq, stageOf, collapseAdj,
                goodStageSeq, goodStages, apiKinds, apiKindOf, kindsSubseq, isDeleteEv, egressBodies, deploymentBodies]
            · simp [secretStep, deployStep, hef, hpe, hsv, hdv, stageSeq, stageOf, collapseAdj,
                goodStageSeq, goodStages, apiKinds, apiKindOf, kindsSubseq, isDeleteEv, egressBodies, deploymentBodies]
          · rcases hdv : respView dr with _ | dm | ⟨ds, dm⟩
            · by_cases hbs : cfg.before_script = "" <;>
              rcases hew : cfg.egress_whitelist with _ | wl <;>
              rcases hev : respView er with _ | em2 | ⟨es, em2⟩ <;>
              rcases hiv : respView ir with _ | im2 | ⟨is2, im2⟩ <;>
              simp [secretStep, deployStep, initWaitStep, egressStep, ingressStep, completeStep,
                hef, hpe, hsv, hdv, hbs, hew, hev, hiv, stageSeq, stageOf, collapseAdj,
                goodStageSeq, goodStages, apiKinds, apiKindOf, kindsSubseq, isDeleteEv, egressBodies, deploymentBodies]
            · simp [secretStep, deployStep, hef, hpe, hsv, hdv, stageSeq, stageOf, collapseAdj,
                goodStageSeq, goodStages, apiKinds, apiKindOf, kindsSubseq, isDeleteEv, egressBodies, deploymentBodies]
            · simp [secretStep, deployStep, hef, hpe, hsv, hdv, stageSeq, stageOf, collapseAdj,
                goodStageSeq, goodStages, apiKinds, apiKindOf, kindsSubseq, isDeleteEv, egressBodies, deploymentBodies]
          · simp [secretStep, hef, hpe, hsv, stageSeq, stageOf, collapseAdj, goodStageSeq,
              goodStages, apiKinds, apiKindOf, kindsSubseq, isDeleteEv, egressBodies, deploymentBodies]
        · simp [secretStep, hef, hpe, stageSeq, stageOf, collapseAdj, goodStageSeq,
            goodStages, apiKinds, apiKindOf, kindsSubseq, isDeleteEv, egressBodies, deploymentBodies]

/-- Computation rule: a 409 response is classified as a conflict. -/
theorem respView_conflict (m : String) : respView (ApiResp.err 409 m) = RespView.conflict m := rfl

/-- Computation rule: a success response is classified as ok. -/
theorem respView_ok : respView ApiResp.ok = RespView.ok := rfl

/-- A list is a prefix of itself extended on the right. -/
theorem isPrefixOf_self_append (l r : List Char) : l.isPrefixOf (l ++ r) = true := by
  induction l with
  | nil => simp [List.isPrefixOf]
  | cons a as ih => simp [List.isPrefixOf, ih]

/-- A string starting with the literal `a` differs from any string `b` that
`a` is not a prefix of. -/
theorem stringNeOfNoPrefix (a t b : String) (h : a.data.isPrefixOf b.data = false) :
    a ++ t ≠ b := by
  intro he
  have hd : a.data ++ t.data = b.data := congrArg String.data he
  have hp : a.data.isPrefixOf b.data = true := by
    rw [← hd]; exact isPrefixOf_self_append a.data t.data
  rw [h] at hp
  exact Bool.noConfusion hp

/-! Claim theorems. -/

/-- C6.  Progress-event ordering: for every create, the collapsed sequence of
emitted stage values is a prefix of
`[provisioning, before_script, network_lockdown, complete]` (or such a prefix
ending in the terminal `error` stage), and the API calls — secret creation,
workload creation, init-wait polling, egress-policy creation, ingress-deny
creation — occur as a subsequence of that canonical order, so no later-stage
action ever precedes an earlier-stage one within a single call. -/
theorem c6_progress_event_ordering (cfg : SandboxConfig) (env : ClusterEnv) :
    goodStageSeq (collapseAdj (stageSeq (createSandbox cfg env).2)) = true ∧
    kindsSubseq (apiKinds (createSandbox cfg env).2)
      [ApiKind.secret, ApiKind.deployment, ApiKind.poll, ApiKind.egress, ApiKind.ingress] = true :=
  ⟨(createTraceFacts cfg env).1, (createTraceFacts cfg env).2.1⟩

/-- C1.  Egress tri-state: when `egress_whitelist` is absent no egress policy
body is ever sent to the cluster; when it is present (empty or not) every
egress policy body sent is exactly `buildEgressPolicy`, which is named
`<name>-netpol`, has `policyTypes=[Egress]`, selects
`katakate.org/sandbox=<name>`, and whose rules are one single-`ipBlock`
port-free rule per CIDR in list order followed by the DNS rule — hence
exactly `|list| + 1` rules, and exactly one for the empty list. -/
theorem c1_egress_tristate (cfg : SandboxConfig) (env : ClusterEnv) :
    (cfg.egress_whitelist = none → egressBodies (createSandbox cfg env).2 = []) ∧
    (∀ wl, cfg.egress_whitelist = some wl →
      ∀ b ∈ egressBodies (createSandbox cfg env).2, b = buildEgressPolicy cfg.name cfg.ns wl) ∧
    (∀ nm nsp wl, buildEgressPolicy nm nsp wl =
      { name := nm ++ "-netpol", ns := nsp,
        podSelector := [("katakate.org/sandbox", nm)],
        policyTypes := ["Egress"],
        egress := some (wl.map (fun c => { toPeers := [NPPeer.ipBlock c], ports := none }) ++
          [{ toPeers := [NPPeer.nsPodSelector [("kubernetes.io/metadata.name", "kube-system")]
                [("k8s-app", "kube-dns")]],
             ports := some [{ protocol := "UDP", port := 53 }, { protocol := "TCP", port := 53 }] }]) } ∧
      ((buildEgressPolicy nm nsp wl).egress.getD []).length = wl.length + 1) := by
  refine ⟨(createTraceFacts cfg env).2.2.2.1, (createTraceFacts cfg env).2.2.2.2.1, ?_⟩
  intro nm nsp wl
  exact ⟨rfl, by simp [buildEgressPolicy]⟩

/-- C2.  Workload-name conflict: when deployment creation returns HTTP 409,
`create_sandbox` returns `success=false` with error
`Sandbox <name> already exists` immediately — after the deployment call the
trace contains no egress or ingress policy creation, and no delete call is
ever issued (no rollback of an already-created secret). -/
theorem c2_conflict_no_rollback (cfg : SandboxConfig) (env : ClusterEnv) (m : String)
    (b : Deployment) (hd : env.createDeploymentResp = ApiResp.err 409 m)
    (hb : Ev.apiCreateDeployment b ∈ (createSandbox cfg env).2) :
    (createSandbox cfg env).1 =
      { success := false, message := "", error := "Sandbox " ++ cfg.name ++ " already exists" } ∧
    (∀ e ∈ (createSandbox cfg env).2,
      apiKindOf e ≠ some ApiKind.egress ∧ apiKindOf e ≠ some ApiKind.ingress) ∧
    (∀ e ∈ (createSandbox cfg env).2, isDeleteEv e = false) := by
  obtain ⟨fe, fc, sr, dr, po, er, ir⟩ := env
  subst hd
  rcases hv : validateLimits cfg.limits with m2 | b2
  · simp [createSandbox, hv] at hb
  · cases b2
    · simp [createSandbox, hv] at hb
    · simp only [createSandbox, hv] at hb ⊢
      rcases hef : envFileSet cfg && fe with _ | _
      · refine ⟨?_, ?_, ?_⟩ <;>
          simp [secretStep, deployStep, hef, respView_conflict, apiKindOf, isDeleteEv]
      · rcases hpe : (parseEnvContent fc).isEmpty with _ | _
        · rcases hsv : respView sr with _ | sm | ⟨ss, sm⟩
          · refine ⟨?_, ?_, ?_⟩ <;>
              simp [secretStep, deployStep, hef, hpe, hsv, respView_conflict, apiKindOf, isDeleteEv]
          · refine ⟨?_, ?_, ?_⟩ <;>
              simp [secretStep, deployStep, hef, hpe, hsv, respView_conflict, apiKindOf, isDeleteEv]
          · simp [secretStep, hef, hpe, hsv] at hb
        · simp [secretStep, hef, hpe] at hb

/-- Every error escaping `_parse_resource_value` is an `int()` `ValueError`
message. -/
theorem parseErrForm (v e : String) (h : parseResourceValue v = Except.error e) :
    ∃ t, e = "invalid literal for int with base 10: " ++ t := by
  unfold parseResourceValue intOrMsg at h
  repeat' split at h
  all_goals simp_all [Except.map]
  all_goals exact ⟨_, h.symm⟩

/-- Every error escaping the `_validate_limits` loop is an `int()`
`ValueError` message. -/
theorem validateGoErrForm (l : List (String × String)) (e : String)
    (h : validateLimitsGo l = Except.error e) :
    ∃ t, e = "invalid literal for int with base 10: " ++ t := by
  induction l with
  | nil => simp [validateLimitsGo] at h
  | cons p rest ih =>
    unfold validateLimitsGo at h
    split at h
    · split at h
      · rename_i e2 heq
        obtain ⟨t, ht⟩ := parseErrForm _ _ heq
        cases h
        exact ⟨t, ht⟩
      · split at h
        · simp at h
        · exact ih h
    · exact ih h

/-- Every error escaping `_validate_limits` is an `int()` `ValueError`
message. -/
theorem validateErrForm (l : List (String × String)) (e : String)
    (h : validateLimits l = Except.error e) :
    ∃ t, e = "invalid literal for int with base 10: " ++ t := by
  unfold validateLimits at h
  split at h
  · simp at h
  · exact validateGoErrForm l e h

/-- C9.  Missing env file: when `env_file` names a path that does not exist,
no secret-creation call is ever made and the env-file validation error is
never reported, yet the built container — including the one inside every
deployment body actually sent to the cluster — still references the secret
`<name>-env` through `envFrom`: the existence check guards only secret
creation, not the container wiring. -/
theorem c9_missing_env_file_wiring (cfg : SandboxConfig) (env : ClusterEnv) (p : String)
    (hp : cfg.env_file = some p) (hpne : p ≠ "") (hfe : env.envFileExists = false) :
    (∀ e ∈ (createSandbox cfg env).2, apiKindOf e ≠ some ApiKind.secret) ∧
    (createSandbox cfg env).1.error ≠ "env_file is empty or invalid; no variables parsed" ∧
    (buildContainer cfg).envFrom = [cfg.name ++ "-env"] ∧
    (∀ b ∈ deploymentBodies (createSandbox cfg env).2,
      b.podSpec.containers = [buildContainer cfg]) := by
  obtain ⟨fe, fc, sr, dr, po, er, ir⟩ := env
  subst hfe
  rw [pollIrrel]
  rcases hv : validateLimits cfg.limits with m | b
  · obtain ⟨t, ht⟩ := validateErrForm _ _ hv
    subst ht
    refine ⟨?_, ?_, ?_, ?_⟩
    · simp [createSandbox, hv, apiKindOf]
    · simp only [createSandbox, hv]
      exact stringNeOfNoPrefix _ _ _ (by decide)
    · simp [buildContainer, envFileSet, hp, hpne]
    · simp [createSandbox, hv, deploymentBodies]
  · cases b
    · simp only [createSandbox, hv]
      refine ⟨by simp [apiKindOf], by simp, ?_, by simp [deploymentBodies]⟩
      simp [buildContainer, envFileSet, hp, hpne]
    · simp only [createSandbox, hv]
      have hc : (buildContainer cfg).envFrom = [cfg.name ++ "-env"] := by
        simp [buildContainer, envFileSet, hp, hpne]
      rcases hdv : respView dr with _ | dm | ⟨ds, dm⟩
      · by_cases hbs : cfg.before_script = "" <;>
        rcases hew : cfg.egress_whitelist with _ | wl <;>
        rcases hev : respView er with _ | em2 | ⟨es, em2⟩ <;>
        rcases hiv : respView ir with _ | im2 | ⟨is2, im2⟩ <;>
        refine ⟨?_, ?_, hc, ?_⟩ <;>
        simp [secretStep, deployStep, initWaitStep, egressStep, ingressStep, completeStep,
          hdv, hbs, hew, hev, hiv, apiKindOf, deploymentBodies, buildDeployment,
          String.append_assoc] <;>
        first
          | decide
          | exact stringNeOfNoPrefix _ _ _ (by decide)
      · refine ⟨?_, ?_, hc, ?_⟩ <;>
        simp [secretStep, deployStep, hdv, apiKindOf, deploymentBodies, buildDeployment,
          String.append_assoc] <;>
        first
          | decide
          | exact stringNeOfNoPrefix _ _ _ (by decide)
      · refine ⟨?_, ?_, hc, ?_⟩ <;>
        simp [secretStep, deployStep, hdv, apiKindOf, deploymentBodies, buildDeployment,
          String.append_assoc] <;>
        first
          | decide
          | exact stringNeOfNoPrefix _ _ _ (by decide)

/-- C10.  Init-wait failures are swallowed: the outcome of the readiness
polling — becoming Ready, timing out, or any raised exception — never
changes the result or the trace of a create; and whenever the workload was
created with a non-empty before-script, the `before_script done` event is
emitted, the pods were polled, and the run advances to the network-lockdown
stage. -/
theorem c10_initwait_exceptions_swallowed (cfg : SandboxConfig) (env : ClusterEnv)
    (o1 o2 : PollOutcome) (hbs : cfg.before_script ≠ "") :
    createSandbox cfg { env with pollOutcome := o1 } =
      createSandbox cfg { env with pollOutcome := o2 } ∧
    (env.createDeploymentResp = ApiResp.ok →
      ∀ b, Ev.apiCreateDeployment b ∈ (createSandbox cfg env).2 →
      Ev.progress "before_script" "done" ∈ (createSandbox cfg env).2 ∧
      Ev.apiPollPods ("app=" ++ cfg.name) ∈ (createSandbox cfg env).2 ∧
      ∃ st, Ev.progress "network_lockdown" st ∈ (createSandbox cfg env).2) := by
  obtain ⟨fe, fc, sr, dr, po, er, ir⟩ := env
  constructor
  · show createSandbox cfg (ClusterEnv.mk fe fc sr dr o1 er ir) =
      createSandbox cfg (ClusterEnv.mk fe fc sr dr o2 er ir)
    rw [pollIrrel cfg fe fc sr dr er ir o1, pollIrrel cfg fe fc sr dr er ir o2]
  · intro hdr b hb
    subst hdr
    rw [pollIrrel] at hb ⊢
    rcases hv : validateLimits cfg.limits with m | b2
    · simp [createSandbox, hv] at hb
    · cases b2
      · simp [createSandbox, hv] at hb
      · simp only [createSandbox, hv] at hb ⊢
        rcases hef : envFileSet cfg && fe with _ | _
        · refine ⟨?_, ?_, ?_⟩ <;>
          rcases hew : cfg.egress_whitelist with _ | wl <;>
          rcases hev : respView er with _ | em2 | ⟨es, em2⟩ <;>
          rcases hiv : respView ir with _ | im2 | ⟨is2, im2⟩ <;>
          simp [secretStep, deployStep, initWaitStep, egressStep, ingressStep, completeStep,
            hef, hbs, hew, hev, hiv, respView_ok]
        · rcases hpe : (parseEnvContent fc).isEmpty with _ | _
          · rcases hsv : respView sr with _ | sm | ⟨ss, sm⟩
            · refine ⟨?_, ?_, ?_⟩ <;>
              rcases hew : cfg.egress_whitelist with _ | wl <;>
              rcases hev : respView er with _ | em2 | ⟨es, em2⟩ <;>
              rcases hiv : respView ir with _ | im2 | ⟨is2, im2⟩ <;>
              simp [secretStep, deployStep, initWaitStep, egressStep, ingressStep, completeStep,
                hef, hpe, hsv, hbs, hew, hev, hiv, respView_ok]
            · refine ⟨?_, ?_, ?_⟩ <;>
              rcases hew : cfg.egress_whitelist with _ | wl <;>
              rcases hev : respView er with _ | em2 | ⟨es, em2⟩ <;>
              rcases hiv : respView ir with _ | im2 | ⟨is2, im2⟩ <;>
              simp [secretStep, deployStep, initWaitStep, egressStep, ingressStep, completeStep,
                hef, hpe, hsv, hbs, hew, hev, hiv, respView_ok]
            · simp [secretStep, hef, hpe, hsv] at hb
          · simp [secretStep, hef, hpe] at hb

/-- The empty-mapping shortcut of `_validate_limits` agrees with the loop. -/
theorem validateLimits_eq_go (l : List (String × String)) :
    validateLimits l = validateLimitsGo l := by
  cases l <;> simp [validateLimits, validateLimitsGo]

/-- The `_validate_limits` loop accepts exactly the mappings whose tracked
values parse to positive quantities. -/
theorem validateGo_iff (l : List (String × String)) :
    validateLimitsGo l = Except.ok true ↔
      ∀ p ∈ l, trackedKey p.1 = true →
        ∃ n : Int, parseResourceValue p.2 = Except.ok n ∧ 0 < n := by
  induction l with
  | nil => simp [validateLimitsGo]
  | cons p rest ih =>
    obtain ⟨k, v⟩ := p
    by_cases hk : trackedKey k = true
    · rcases hpv : parseResourceValue v with e | n
      · simp [validateLimitsGo, hk, hpv]
      · by_cases hn : n ≤ 0
        · constructor
          · intro h
            exfalso
            simp [validateLimitsGo, hk, hpv, hn] at h
          · intro h
            exfalso
            obtain ⟨n2, hn2, hpos⟩ := h (k, v) (List.mem_cons_self _ _) hk
            rw [hpv] at hn2
            injection hn2 with hnn
            omega
        · constructor
          · intro h
            simp only [validateLimitsGo, hk, hpv, if_true, if_neg hn] at h
            intro q hq htq
            rcases List.mem_cons.mp hq with hq1 | hq2
            · subst hq1
              exact ⟨n, hpv, by omega⟩
            · exact (ih.mp h) q hq2 htq
          · intro h
            simp only [validateLimitsGo, hk, hpv, if_true, if_neg hn]
            exact ih.mpr fun q hq htq => h q (List.mem_cons_of_mem _ hq) htq
    · constructor
      · intro h
        simp only [validateLimitsGo, hk, if_false, Bool.false_eq_true, if_neg] at h
        intro q hq htq
        rcases List.mem_cons.mp hq with hq1 | hq2
        · subst hq1
          exact absurd htq hk
        · exact (ih.mp h) q hq2 htq
      · intro h
        simp only [validateLimitsGo, hk, Bool.false_eq_true, if_neg] at h ⊢
        exact ih.mpr fun q hq htq => h q (List.mem_cons_of_mem _ hq) htq

/-- C3 (amended).  Limits validation accepts a mapping exactly when every
value under a tracked key (`cpu`, `memory`, `ephemeral-storage`) parses to a
strictly positive quantity under the code's parser; rejection returns the
`Invalid resource limits` failure with no event emitted and no cluster call.
The parser floor-divides `Ki` by 1024, so the positive quantity `100Ki`
parses to 0 and is rejected, while `1024Ki`, `512Mi`, `2Gi` and `500m`
parse to their expected positive values. -/
theorem c3_limits_validation (cfg : SandboxConfig) (env : ClusterEnv) :
    (validateLimits cfg.limits = Except.ok true ↔
      ∀ p ∈ cfg.limits, trackedKey p.1 = true →
        ∃ n : Int, parseResourceValue p.2 = Except.ok n ∧ 0 < n) ∧
    (validateLimits cfg.limits = Except.ok false →
      createSandbox cfg env =
        ({ success := false, message := "", error := "Invalid resource limits" }, [])) ∧
    parseResourceValue "100Ki" = Except.ok 0 ∧
    parseResourceValue "1024Ki" = Except.ok 1 ∧
    parseResourceValue "512Mi" = Except.ok 512 ∧
    parseResourceValue "2Gi" = Except.ok 2048 ∧
    parseResourceValue "500m" = Except.ok 500 := by
  refine ⟨?_, ?_, rfl, rfl, rfl, rfl, rfl⟩
  · rw [validateLimits_eq_go]
    exact validateGo_iff cfg.limits
  · intro hv
    simp [createSandbox, hv]

/-- C3 counterexample.  `100Ki` is a syntactically valid, strictly positive
quantity of the claimed grammar, yet validation rejects it (the parser
floor-divides `Ki` by 1024, giving 0), so a create with
`limits={memory: 100Ki}` fails with `Invalid resource limits`. -/
theorem c3_counterexample :
    validateLimits [("memory", "100Ki")] = Except.ok false ∧
    (createSandbox { name := "a", image := "alpine:latest", limits := [("memory", "100Ki")] }
        (ClusterEnv.mk false [] ApiResp.ok ApiResp.ok PollOutcome.ready ApiResp.ok ApiResp.ok)) =
      ({ success := false, message := "", error := "Invalid resource limits" }, []) :=
  ⟨rfl, rfl⟩

/-- C4.  Deletion is a four-independent-delete cascade — workload, secret
`<name>-env`, egress policy `<name>-netpol`, ingress policy
`<name>-deny-ingress` — in which every 404 is silently ignored, other errors
are collected and semicolon-joined, success holds exactly when no error was
collected, and two successive deletes against a fault-free cluster both
succeed from any starting state. -/
theorem c4_delete_cascade_idempotent (nm nsp : String) (env : DeleteEnv) (s : SBState) :
    (deleteSandboxResources nm nsp env).2 =
      [Ev.delDeployment nm nsp, Ev.delSecret (nm ++ "-env") nsp,
       Ev.delNetpol (nm ++ "-netpol") nsp, Ev.delNetpol (nm ++ "-deny-ingress") nsp] ∧
    ((deleteSandboxResources nm nsp env).1.success = true ↔ collectDeleteErrors env = []) ∧
    ((deleteSandboxResources nm nsp env).1.success = false →
      (deleteSandboxResources nm nsp env).1.error =
        String.intercalate "; " (collectDeleteErrors env)) ∧
    ((deleteTwice nm nsp s).1.success = true ∧ (deleteTwice nm nsp s).2.success = true) := by
  refine ⟨?_, ?_, ?_, ?_⟩
  · unfold deleteSandboxResources
    split <;> rfl
  · unfold deleteSandboxResources
    rcases h : (collectDeleteErrors env).isEmpty with _ | _ <;>
      simp_all [List.isEmpty_iff]
  · unfold deleteSandboxResources
    rcases h : (collectDeleteErrors env).isEmpty with _ | _ <;> simp_all
  · obtain ⟨b1, b2, b3, b4⟩ := s
    cases b1 <;> cases b2 <;> cases b3 <;> cases b4 <;> exact ⟨rfl, rfl⟩

/-- C5.  The exec channel never escapes an exception: a missing workload
maps to `Sandbox <name> not found`, another read failure to a
`Failed to get deployment` message, an empty pod list to
`No pods found for sandbox <name>`, a pod in any non-Running phase to
`Pod is not running (status: <phase>)` — each as
`ExecResult(exit_code=1, stdout="", stderr=<message>)` with the measured
duration — and on success an absent stream return code maps to exit code 0. -/
theorem c5_exec_never_raises (nm cmd nsp : String) (env : ExecEnv) :
    (execCommand nm cmd nsp env).duration_ms = env.elapsedMs ∧
    (execFailPath env = true →
      ∃ msg, execCommand nm cmd nsp env = ExecResult.mk 1 "" msg env.elapsedMs) ∧
    (∀ m, env.readDeploymentResp = ApiResp.err 404 m →
      execCommand nm cmd nsp env =
        ExecResult.mk 1 "" ("Sandbox " ++ nm ++ " not found") env.elapsedMs) ∧
    (∀ st m, env.readDeploymentResp = ApiResp.err st m → st ≠ 404 →
      execCommand nm cmd nsp env =
        ExecResult.mk 1 "" ("Failed to get deployment: " ++ m) env.elapsedMs) ∧
    (env.readDeploymentResp = ApiResp.ok → env.listPods = ListPodsOutcome.pods [] →
      execCommand nm cmd nsp env =
        ExecResult.mk 1 "" ("No pods found for sandbox " ++ nm) env.elapsedMs) ∧
    (∀ p rest, env.readDeploymentResp = ApiResp.ok →
      env.listPods = ListPodsOutcome.pods (p :: rest) → p.phase ≠ "Running" →
      execCommand nm cmd nsp env =
        ExecResult.mk 1 "" ("Pod is not running (status: " ++ p.phase ++ ")") env.elapsedMs) ∧
    (∀ p rest so se, env.readDeploymentResp = ApiResp.ok →
      env.listPods = ListPodsOutcome.pods (p :: rest) → p.phase = "Running" →
      env.streamOutcome = StreamOutcome.finished so se none →
      execCommand nm cmd nsp env = ExecResult.mk 0 so se env.elapsedMs) := by
  obtain ⟨rd, lp, st, ms⟩ := env
  rcases rd with _ | ⟨s, m⟩
  · rcases lp with items | m2
    · rcases items with _ | ⟨p, rest⟩
      · simp [execCommand, execFailPath]
      · by_cases hph : p.phase = "Running"
        · rcases st with ⟨so, se, rc⟩ | m3
          · rcases rc with _ | rcv <;> simp [execCommand, execFailPath, hph]
          · simp [execCommand, execFailPath, hph]
        · simp [execCommand, execFailPath, hph]
          intro p1 r1 so se hp hr hrun
          subst hp
          exact absurd hrun hph
    · simp [execCommand, execFailPath]
  · by_cases hs : s = 404 <;> simp [execCommand, execFailPath, hs]

/-- C7 (amended).  Every workload passed to the cluster is `buildDeployment`:
1 replica, selector `{app: <name>}`, `restartPolicy=Always`,
`runtimeClassName=kata` (the config dataclass has no runtime-class field, so
the getattr default always applies); the label `runtime=kata` sits on the
Deployment metadata together with `app` and `katakate.org/sandbox`, while
the pod template labels are exactly `{app: <name>,
katakate.org/sandbox: <name>}` — without `runtime=kata`. -/
theorem c7_workload_shape (cfg : SandboxConfig) (env : ClusterEnv) :
    (buildDeployment cfg).replicas = 1 ∧
    (buildDeployment cfg).selectorMatchLabels = [("app", cfg.name)] ∧
    (buildDeployment cfg).podSpec.restartPolicy = "Always" ∧
    (buildDeployment cfg).podSpec.runtimeClassName = "kata" ∧
    (buildDeployment cfg).templateLabels = [("app", cfg.name), ("katakate.org/sandbox", cfg.name)] ∧
    (buildDeployment cfg).labels =
      [("app", cfg.name), ("runtime", "kata"), ("katakate.org/sandbox", cfg.name)] ∧
    (∀ b ∈ deploymentBodies (createSandbox cfg env).2, b = buildDeployment cfg) :=
  ⟨rfl, rfl, rfl, rfl, rfl, rfl, (createTraceFacts cfg env).2.2.2.2.2⟩

/-- C7 counterexample.  For the minimal config the pod template labels do
not contain `runtime=kata`: they are exactly `{app, katakate.org/sandbox}`,
refuting the claim that the template labels are
`{app, runtime: kata, katakate.org/sandbox}`. -/
theorem c7_counterexample :
    ("runtime", "kata") ∉ (buildDeployment { name := "a", image := "alpine:latest" }).templateLabels ∧
    (buildDeployment { name := "a", image := "alpine:latest" }).templateLabels =
      [("app", "a"), ("katakate.org/sandbox", "a")] := by
  exact ⟨by decide, rfl⟩



theorem normalizeCRLF_id (s : List Char) (h : ∀ c ∈ s, c ≠ Char.ofNat 13) :
    normalizeCRLF s = s := by
  induction s with
  | nil => rfl
  | cons c rest ih =>
    unfold normalizeCRLF
    have hc : c ≠ Char.ofNat 13 := h c (List.mem_cons_self _ _)
    simp [hc]
    exact ih fun c2 hc2 => h c2 (List.mem_cons_of_mem _ hc2)

theorem splitSimpleGo_no_break (l acc : List Char)
    (h : ∀ c ∈ l, isLineBreak c = false) :
    splitSimpleGo l acc = [acc.reverse ++ l] := by
  induction l generalizing acc with
  | nil => rw [splitSimpleGo.eq_def]; simp
  | cons c rest ih =>
    rw [splitSimpleGo.eq_def]
    have hc : isLineBreak c = false := h c (List.mem_cons_self _ _)
    simp only [hc, Bool.false_eq_true, if_false]
    rw [ih (c :: acc) (fun c2 hc2 => h c2 (List.mem_cons_of_mem _ hc2))]
    simp

theorem splitSimpleGo_nl (l rest acc : List Char)
    (h : ∀ c ∈ l, isLineBreak c = false) (hr : rest ≠ []) :
    splitSimpleGo (l ++ Char.ofNat 10 :: rest) acc =
      (acc.reverse ++ l) :: splitSimpleGo rest [] := by
  induction l generalizing acc with
  | nil =>
    rw [List.nil_append, splitSimpleGo.eq_def]
    have hnl : isLineBreak (Char.ofNat 10) = true := by decide
    simp [hnl, hr, List.isEmpty_iff]
  | cons c l2 ih =>
    rw [List.cons_append, splitSimpleGo.eq_def]
    have hc : isLineBreak c = false := h c (List.mem_cons_self _ _)
    simp only [hc, Bool.false_eq_true, if_false]
    rw [ih (c :: acc) (fun c2 hc2 => h c2 (List.mem_cons_of_mem _ hc2))]
    simp

theorem joinNL_ne_nil (ls : List (List Char)) (h0 : ls ≠ [])
    (h : ∀ l ∈ ls, l ≠ []) : joinNL ls ≠ [] := by
  match ls with
  | [] => exact absurd rfl h0
  | [l] => exact h l (List.mem_cons_self _ _)
  | l :: l2 :: rest =>
    unfold joinNL
    cases hl : l with
    | nil => exact absurd hl (h l (List.mem_cons_self _ _))
    | cons a as => simp

theorem joinNL_no_cr (ls : List (List Char))
    (h : ∀ l ∈ ls, ∀ c ∈ l, isLineBreak c = false) :
    ∀ c ∈ joinNL ls, c ≠ Char.ofNat 13 := by
  induction ls with
  | nil => intro c hc; exact absurd hc (List.not_mem_nil c)
  | cons l rest ih =>
    intro c hc
    match rest with
    | [] =>
      have := h l (List.mem_cons_self _ _) c hc
      intro he
      subst he
      simp [isLineBreak, lineBreakChars] at this
    | l2 :: r2 =>
      unfold joinNL at hc
      rcases List.mem_append.mp hc with h1 | h2
      · have := h l (List.mem_cons_self _ _) c h1
        intro he
        subst he
        simp [isLineBreak, lineBreakChars] at this
      · rcases List.mem_cons.mp h2 with h3 | h4
        · subst h3
          decide
        · exact ih (fun l3 hl3 => h l3 (List.mem_cons_of_mem _ hl3)) c h4

theorem pySplitlines_joinNL (ls : List (List Char))
    (hne : ∀ l ∈ ls, l ≠ [])
    (hbr : ∀ l ∈ ls, ∀ c ∈ l, isLineBreak c = false) :
    pySplitlines (joinNL ls) = ls := by
  induction ls with
  | nil => rfl
  | cons l rest ih =>
    match rest with
    | [] =>
      show pySplitlines (joinNL [l]) = [l]
      unfold pySplitlines
      have hl : l ≠ [] := hne l (List.mem_cons_self _ _)
      have hbl : ∀ c ∈ l, isLineBreak c = false := hbr l (List.mem_cons_self _ _)
      have hj : joinNL [l] = l := rfl
      rw [hj]
      rw [normalizeCRLF_id l (fun c hc he => by
        have := hbl c hc
        subst he
        simp [isLineBreak, lineBreakChars] at this)]
      simp [List.isEmpty_iff, hl]
      rw [splitSimpleGo_no_break l [] hbl]
      simp
    | l2 :: r2 =>
      have hl : l ≠ [] := hne l (List.mem_cons_self _ _)
      have hbl : ∀ c ∈ l, isLineBreak c = false := hbr l (List.mem_cons_self _ _)
      have hj : joinNL (l :: l2 :: r2) = l ++ Char.ofNat 10 :: joinNL (l2 :: r2) := rfl
      have hrest : joinNL (l2 :: r2) ≠ [] :=
        joinNL_ne_nil _ (by simp) (fun q hq => hne q (List.mem_cons_of_mem _ hq))
      have hnorm : normalizeCRLF (joinNL (l :: l2 :: r2)) = joinNL (l :: l2 :: r2) :=
        normalizeCRLF_id _ (joinNL_no_cr _ hbr)
      have hjoin_ne : joinNL (l :: l2 :: r2) ≠ [] :=
        joinNL_ne_nil _ (by simp) hne
      unfold pySplitlines
      rw [hnorm]
      have hcond : (joinNL (l :: l2 :: r2)).isEmpty = false := by
        simp [List.isEmpty_iff, hjoin_ne]
      rw [hcond]
      simp only [Bool.false_eq_true, if_false]
      rw [hj, splitSimpleGo_nl l _ [] hbl hrest]
      have ihr : pySplitlines (joinNL (l2 :: r2)) = l2 :: r2 :=
        ih (fun q hq => hne q (List.mem_cons_of_mem _ hq))
           (fun q hq => hbr q (List.mem_cons_of_mem _ hq))
      unfold pySplitlines at ihr
      rw [normalizeCRLF_id _ (joinNL_no_cr _ (fun q hq => hbr q (List.mem_cons_of_mem _ hq)))] at ihr
      have hcond2 : (joinNL (l2 :: r2)).isEmpty = false := by
        simp [List.isEmpty_iff, hrest]
      rw [hcond2] at ihr
      simp only [Bool.false_eq_true, if_false] at ihr
      rw [ihr]
      simp


theorem dropWhile_eq_self_of_head (p : Char → Bool) (l : List Char)
    (h : ∀ c, l.head? = some c → p c = false) : l.dropWhile p = l := by
  cases l with
  | nil => rfl
  | cons a t => simp [List.dropWhile_cons, h a rfl]

theorem pyStripBy_eq_self (p : Char → Bool) (s : List Char)
    (hh : ∀ c, s.head? = some c → p c = false)
    (hl : ∀ c, s.getLast? = some c → p c = false) : pyStripBy p s = s := by
  unfold pyStripBy
  rw [dropWhile_eq_self_of_head p s hh]
  rw [dropWhile_eq_self_of_head p s.reverse (fun c hc => hl c (by rwa [List.head?_reverse] at hc))]
  exact List.reverse_reverse s

theorem splitEq_append (k v : List Char) (h : k.contains (Char.ofNat 61) = false) :
    splitEq (k ++ Char.ofNat 61 :: v) = (k, v) := by
  induction k with
  | nil =>
    unfold splitEq
    simp
  | cons c k2 ih =>
    simp only [List.contains_cons, Bool.or_eq_false_iff, beq_eq_false_iff_ne, ne_eq] at h
    have hcp : ¬(c = Char.ofNat 61) := fun he => h.1 he.symm
    have hk2 : k2.contains (Char.ofNat 61) = false := h.2
    unfold splitEq
    simp only [List.cons_append]
    simp [hcp, ih hk2]

theorem contains_append_cons (l1 l2 : List Char) (c : Char) :
    (l1 ++ c :: l2).contains c = true := by
  induction l1 with
  | nil => simp [List.contains_cons]
  | cons a t ih => simp [List.contains_cons, ih]

theorem dictInsert_fresh (m : List (List Char × List Char)) (k v : List Char)
    (h : ∀ q ∈ m, q.1 ≠ k) : dictInsert m k v = m ++ [(k, v)] := by
  unfold dictInsert
  have : (m.any fun p => p.1 = k) = false := by
    rw [List.any_eq_false]
    intro q hq
    simp [h q hq]
  simp [this]


theorem parseEnvLine_good (acc : List (List Char × List Char)) (k v : List Char)
    (hk : goodKeyB k = true) (hv : goodValB v = true) :
    parseEnvLine acc (envLine (k, v)) = dictInsert acc k (stripQuotes v) := by
  simp only [goodKeyB, Bool.and_eq_true] at hk
  obtain ⟨⟨⟨⟨⟨hkne, hkbr⟩, hkeq⟩, hkhash⟩, hkhead⟩, hklast⟩ := hk
  simp only [goodValB, Bool.and_eq_true] at hv
  obtain ⟨⟨hvbr, hvhead⟩, hvlast⟩ := hv
  obtain ⟨a, k2, rfl⟩ : ∃ a k2, k = a :: k2 := by
    cases k with
    | nil => simp at hkne
    | cons a k2 => exact ⟨a, k2, rfl⟩
  have hahead : isPySpace a = false := by simpa using hkhead
  have hklastP : ∀ c, (a :: k2).getLast? = some c → isPySpace c = false := by
    intro c hc
    rw [hc] at hklast
    simpa using hklast
  have hvheadP : ∀ c, v.head? = some c → isPySpace c = false := by
    intro c hc
    rw [hc] at hvhead
    simpa using hvhead
  have hvlastP : ∀ c, v.getLast? = some c → isPySpace c = false := by
    intro c hc
    rw [hc] at hvlast
    simpa using hvlast
  have hstrip : pyStrip (envLine (a :: k2, v)) = (a :: k2) ++ Char.ofNat 61 :: v := by
    unfold envLine pyStrip
    apply pyStripBy_eq_self
    · intro c hc
      simp only [List.cons_append, List.head?_cons, Option.some.injEq] at hc
      subst hc
      exact hahead
    · intro c hc
      cases hve : v with
      | nil =>
        subst hve
        rw [List.getLast?_append_cons] at hc
        simp at hc
        subst hc
        decide
      | cons b v2 =>
        subst hve
        rw [List.getLast?_append_cons, List.getLast?_cons_cons] at hc
        exact hvlastP c hc
  unfold parseEnvLine
  rw [hstrip]
  have hcond1 : ((a :: k2) ++ Char.ofNat 61 :: v).isEmpty = false := by simp
  have hcond2 : (((a :: k2) ++ Char.ofNat 61 :: v).head? == some (Char.ofNat 35)) = false := by
    simpa using hkhash
  have hcond3 : ((a :: k2) ++ Char.ofNat 61 :: v).contains (Char.ofNat 61) = true :=
    contains_append_cons _ _ _
  rw [hcond1, hcond2, hcond3]
  simp only [Bool.or_false, Bool.false_or, Bool.not_true, Bool.false_eq_true, if_false]
  have hkcont : (a :: k2).contains (Char.ofNat 61) = false := by simpa using hkeq
  rw [splitEq_append _ _ hkcont]
  have hkstrip : pyStrip (a :: k2) = a :: k2 := by
    apply pyStripBy_eq_self
    · intro c hc
      simp only [List.head?_cons, Option.some.injEq] at hc
      subst hc
      exact hahead
    · exact hklastP
  have hvstrip : pyStrip v = v := pyStripBy_eq_self _ _ hvheadP hvlastP
  simp only [hkstrip, hvstrip]
  simp


theorem foldl_parseEnvLine (pairs : List (List Char × List Char))
    (acc : List (List Char × List Char))
    (hnd : (pairs.map Prod.fst).Nodup)
    (hdisj : ∀ p ∈ pairs, ∀ q ∈ acc, q.1 ≠ p.1)
    (hg : ∀ p ∈ pairs, goodKeyB p.1 = true ∧ goodValB p.2 = true) :
    (pairs.map envLine).foldl parseEnvLine acc =
      acc ++ pairs.map (fun p => (p.1, stripQuotes p.2)) := by
  induction pairs generalizing acc with
  | nil => simp
  | cons p rest ih =>
    obtain ⟨k, v⟩ := p
    simp only [List.map_cons, List.foldl_cons]
    rw [parseEnvLine_good acc k v (hg (k, v) (List.mem_cons_self _ _)).1
      (hg (k, v) (List.mem_cons_self _ _)).2]
    rw [dictInsert_fresh acc k (stripQuotes v)
      (fun q hq => hdisj (k, v) (List.mem_cons_self _ _) q hq)]
    have hknotin : k ∉ rest.map Prod.fst := by
      have := hnd
      simp only [List.map_cons, List.nodup_cons] at this
      exact this.1
    rw [ih (acc ++ [(k, stripQuotes v)])
      (by
        have := hnd
        simp only [List.map_cons, List.nodup_cons] at this
        exact this.2)
      (by
        intro p2 hp2 q hq
        rcases List.mem_append.mp hq with hq1 | hq2
        · exact hdisj p2 (List.mem_cons_of_mem _ hp2) q hq1
        · have hqe : q = (k, stripQuotes v) := by simpa using hq2
          subst hqe
          intro he
          apply hknotin
          have hmm := List.mem_map_of_mem Prod.fst hp2
          rw [← he] at hmm
          exact hmm)
      (fun p2 hp2 => hg p2 (List.mem_cons_of_mem _ hp2))]
    simp

theorem c8_env_roundtrip (pairs : List (List Char × List Char))
    (hnd : (pairs.map Prod.fst).Nodup)
    (hg : ∀ p ∈ pairs, goodKeyB p.1 = true ∧ goodValB p.2 = true) :
    parseEnvContent (renderEnv pairs) = pairs.map (fun p => (p.1, stripQuotes p.2)) := by
  unfold parseEnvContent renderEnv
  rw [pySplitlines_joinNL (pairs.map envLine)
    (by
      intro l hl
      obtain ⟨p, hp, rfl⟩ := List.mem_map.mp hl
      obtain ⟨k, v⟩ := p
      have hk := (hg (k, v) hp).1
      simp only [goodKeyB, Bool.and_eq_true] at hk
      cases k with
      | nil => simp at hk
      | cons a k2 => simp [envLine])
    (by
      intro l hl c hc
      obtain ⟨p, hp, rfl⟩ := List.mem_map.mp hl
      obtain ⟨k, v⟩ := p
      have hk := (hg (k, v) hp).1
      have hv := (hg (k, v) hp).2
      simp only [goodKeyB, Bool.and_eq_true] at hk
      simp only [goodValB, Bool.and_eq_true] at hv
      unfold envLine at hc
      rcases List.mem_append.mp hc with h1 | h2
      · have := hk.1.1.1.1.2
        rw [List.all_eq_true] at this
        simpa using this c h1
      · rcases List.mem_cons.mp h2 with h3 | h4
        · subst h3
          decide
        · have := hv.1.1
          rw [List.all_eq_true] at this
          simpa using this c h4)]
  exact foldl_parseEnvLine pairs [] hnd (by simp) hg


/-- C8 (amended).  Env-file parse round-trip: for a finite map whose keys are
pairwise distinct, non-empty, whitespace-trimmed, free of line breaks and of
`=`, and not starting with `#`, and whose values are whitespace-trimmed and
free of line breaks, rendering each pair as a `K=V` line and parsing the
concatenation with the env-file parser yields exactly the original pairs,
with each value stripped of its surrounding double then single quotes. -/
theorem c8_env_parse_roundtrip (pairs : List (List Char × List Char))
    (hnd : (pairs.map Prod.fst).Nodup)
    (hg : ∀ p ∈ pairs, goodKeyB p.1 = true ∧ goodValB p.2 = true) :
    parseEnvContent (renderEnv pairs) = pairs.map (fun p => (p.1, stripQuotes p.2)) :=
  c8_env_roundtrip pairs hnd hg

/-- C8 counterexample.  The key `#a` is non-empty and newline-free, yet the
rendered line `#a=v` is skipped as a comment by the parser, so the parse of
the rendering is empty and cannot equal the original one-entry map under any
value-quote trimming. -/
theorem c8_counterexample :
    parseEnvContent (renderEnv [(String.data "#a", String.data "v")]) = [] ∧
    [(String.data "#a", String.data "v")].map
      (fun p => (p.1, stripQuotes p.2)) ≠ [] := by
  exact ⟨rfl, by decide⟩

/-- C8 witness: a concrete two-entry map round-trips. -/
theorem c8_env_parse_roundtrip_witness :
    parseEnvContent (renderEnv [(String.data "A", String.data "1"),
        (String.data "B", String.data "2")]) =
      [(String.data "A", stripQuotes (String.data "1")),
       (String.data "B", stripQuotes (String.data "2"))] :=
  c8_env_parse_roundtrip
    [(String.data "A", String.data "1"), (String.data "B", String.data "2")]
    (by decide) (by decide)


/-- C1 witness: for the two-CIDR whitelist the built policy is sent as-is
and has exactly 3 egress rules. -/
theorem c1_egress_tristate_witness :
    Ev.apiCreateEgressPolicy (buildEgressPolicy "c" "default" ["10.0.0.0/8", "192.168.0.0/16"]) ∈
      (createSandbox { name := "c", image := "alpine", egress_whitelist := some ["10.0.0.0/8", "192.168.0.0/16"] } (ClusterEnv.mk false [] ApiResp.ok ApiResp.ok PollOutcome.ready ApiResp.ok ApiResp.ok)).2 ∧
    buildEgressPolicy "c" "default" ["10.0.0.0/8", "192.168.0.0/16"] =
      buildEgressPolicy "c" "default" ["10.0.0.0/8", "192.168.0.0/16"] ∧
    ((buildEgressPolicy "c" "default" ["10.0.0.0/8", "192.168.0.0/16"]).egress.getD []).length = 3 := by
  refine ⟨by decide, ?_, ?_⟩
  · exact (c1_egress_tristate { name := "c", image := "alpine", egress_whitelist := some ["10.0.0.0/8", "192.168.0.0/16"] } (ClusterEnv.mk false [] ApiResp.ok ApiResp.ok PollOutcome.ready ApiResp.ok ApiResp.ok)).2.1
      ["10.0.0.0/8", "192.168.0.0/16"] rfl
      (buildEgressPolicy "c" "default" ["10.0.0.0/8", "192.168.0.0/16"])
      (by decide)
  · exact ((c1_egress_tristate { name := "c", image := "alpine", egress_whitelist := some ["10.0.0.0/8", "192.168.0.0/16"] } (ClusterEnv.mk false [] ApiResp.ok ApiResp.ok PollOutcome.ready ApiResp.ok ApiResp.ok)).2.2
      "c" "default" ["10.0.0.0/8", "192.168.0.0/16"]).2

/-- C2 witness: a 409 on workload creation yields the conflict result. -/
theorem c2_conflict_no_rollback_witness :
    (createSandbox { name := "d", image := "alpine" } (ClusterEnv.mk false [] ApiResp.ok (ApiResp.err 409 "conflict") PollOutcome.ready ApiResp.ok ApiResp.ok)).1 =
      { success := false, message := "", error := "Sandbox " ++ "d" ++ " already exists" } :=
  (c2_conflict_no_rollback { name := "d", image := "alpine" }
    (ClusterEnv.mk false [] ApiResp.ok (ApiResp.err 409 "conflict") PollOutcome.ready ApiResp.ok ApiResp.ok)
    "conflict" (buildDeployment { name := "d", image := "alpine" }) rfl (by decide)).1

/-- C3 witness: `500m` is accepted, and `100Ki` limits make the create fail
validation with no cluster calls. -/
theorem c3_limits_validation_witness :
    (∀ p ∈ [("cpu", "500m")], trackedKey p.1 = true →
      ∃ n : Int, parseResourceValue p.2 = Except.ok n ∧ 0 < n) ∧
    createSandbox { name := "w3", image := "img", limits := [("memory", "100Ki")] } (ClusterEnv.mk false [] ApiResp.ok ApiResp.ok PollOutcome.ready ApiResp.ok ApiResp.ok) =
      ({ success := false, message := "", error := "Invalid resource limits" }, []) := by
  constructor
  · exact (c3_limits_validation { name := "w3", image := "img", limits := [("cpu", "500m")] }
      (ClusterEnv.mk false [] ApiResp.ok ApiResp.ok PollOutcome.ready ApiResp.ok ApiResp.ok)).1.mp rfl
  · exact (c3_limits_validation { name := "w3", image := "img", limits := [("memory", "100Ki")] }
      (ClusterEnv.mk false [] ApiResp.ok ApiResp.ok PollOutcome.ready ApiResp.ok ApiResp.ok)).2.1 rfl

/-- C4 witness: a delete meeting two 404s succeeds, and both of two
successive deletes from a fully-populated state succeed. -/
theorem c4_delete_cascade_idempotent_witness :
    (deleteSandboxResources "b" "default" (DeleteEnv.mk ApiResp.ok (ApiResp.err 404 "nf") ApiResp.ok (ApiResp.err 404 "nf"))).1.success = true ∧
    (deleteTwice "b" "default" (SBState.mk true true true true)).1.success = true ∧
    (deleteTwice "b" "default" (SBState.mk true true true true)).2.success = true := by
  refine ⟨?_, ?_, ?_⟩
  · exact (c4_delete_cascade_idempotent "b" "default"
      (DeleteEnv.mk ApiResp.ok (ApiResp.err 404 "nf") ApiResp.ok (ApiResp.err 404 "nf"))
      (SBState.mk true true true true)).2.1.mpr rfl
  · exact (c4_delete_cascade_idempotent "b" "default"
      (DeleteEnv.mk ApiResp.ok (ApiResp.err 404 "nf") ApiResp.ok (ApiResp.err 404 "nf"))
      (SBState.mk true true true true)).2.2.2.1
  · exact (c4_delete_cascade_idempotent "b" "default"
      (DeleteEnv.mk ApiResp.ok (ApiResp.err 404 "nf") ApiResp.ok (ApiResp.err 404 "nf"))
      (SBState.mk true true true true)).2.2.2.2

/-- C5 witness: a Pending pod, a missing workload, and a stream with an
absent return code each map to the specified `ExecResult`. -/
theorem c5_exec_never_raises_witness :
    execCommand "a" "ls" "default" (ExecEnv.mk ApiResp.ok (ListPodsOutcome.pods [PodM.mk "p1" "Pending"]) (StreamOutcome.finished "" "" none) 42) =
      ExecResult.mk 1 "" ("Pod is not running (status: " ++ "Pending" ++ ")") 42 ∧
    execCommand "a" "ls" "default" (ExecEnv.mk (ApiResp.err 404 "nf") (ListPodsOutcome.pods []) (StreamOutcome.finished "" "" none) 7) =
      ExecResult.mk 1 "" ("Sandbox " ++ "a" ++ " not found") 7 ∧
    execCommand "a" "ls" "default" (ExecEnv.mk ApiResp.ok (ListPodsOutcome.pods [PodM.mk "p1" "Running"]) (StreamOutcome.finished "out" "err" none) 9) =
      ExecResult.mk 0 "out" "err" 9 := by
  refine ⟨?_, ?_, ?_⟩
  · exact (c5_exec_never_raises "a" "ls" "default"
      (ExecEnv.mk ApiResp.ok (ListPodsOutcome.pods [PodM.mk "p1" "Pending"])
        (StreamOutcome.finished "" "" none) 42)).2.2.2.2.2.1
      (PodM.mk "p1" "Pending") [] rfl rfl (by decide)
  · exact (c5_exec_never_raises "a" "ls" "default"
      (ExecEnv.mk (ApiResp.err 404 "nf") (ListPodsOutcome.pods [])
        (StreamOutcome.finished "" "" none) 7)).2.2.1 "nf" rfl
  · exact (c5_exec_never_raises "a" "ls" "default"
      (ExecEnv.mk ApiResp.ok (ListPodsOutcome.pods [PodM.mk "p1" "Running"])
        (StreamOutcome.finished "out" "err" none) 9)).2.2.2.2.2.2
      (PodM.mk "p1" "Running") [] "out" "err" rfl rfl rfl rfl

/-- C7 witness: the deployment body sent for the minimal config is exactly
the built workload. -/
theorem c7_workload_shape_witness :
    buildDeployment { name := "a", image := "alpine:latest" } ∈
      deploymentBodies (createSandbox { name := "a", image := "alpine:latest" } (ClusterEnv.mk false [] ApiResp.ok ApiResp.ok PollOutcome.ready ApiResp.ok ApiResp.ok)).2 ∧
    buildDeployment { name := "a", image := "alpine:latest" } =
      buildDeployment { name := "a", image := "alpine:latest" } :=
  ⟨by decide,
   (c7_workload_shape { name := "a", image := "alpine:latest" }
      (ClusterEnv.mk false [] ApiResp.ok ApiResp.ok PollOutcome.ready ApiResp.ok ApiResp.ok)).2.2.2.2.2.2
     (buildDeployment { name := "a", image := "alpine:latest" }) (by decide)⟩

/-- C9 witness: for an env file that does not exist the built container
still references the `<name>-env` secret. -/
theorem c9_missing_env_file_wiring_witness :
    (buildContainer { name := "e", image := "img", env_file := some "/nope.env" }).envFrom =
      ["e" ++ "-env"] :=
  (c9_missing_env_file_wiring { name := "e", image := "img", env_file := some "/nope.env" }
    (ClusterEnv.mk false [] ApiResp.ok ApiResp.ok PollOutcome.ready ApiResp.ok ApiResp.ok)
    "/nope.env" rfl (by decide) rfl).2.2.1

/-- C10 witness: a raised polling exception leaves the run unchanged, and
the `before_script done` event is emitted. -/
theorem c10_initwait_exceptions_swallowed_witness :
    createSandbox { name := "f", image := "img", before_script := "apk add curl" } (ClusterEnv.mk false [] ApiResp.ok ApiResp.ok (PollOutcome.raised "boom") ApiResp.ok ApiResp.ok) =
      createSandbox { name := "f", image := "img", before_script := "apk add curl" } (ClusterEnv.mk false [] ApiResp.ok ApiResp.ok PollOutcome.ready ApiResp.ok ApiResp.ok) ∧
    Ev.progress "before_script" "done" ∈
      (createSandbox { name := "f", image := "img", before_script := "apk add curl" } (ClusterEnv.mk false [] ApiResp.ok ApiResp.ok PollOutcome.ready ApiResp.ok ApiResp.ok)).2 := by
  constructor
  · exact (c10_initwait_exceptions_swallowed
      { name := "f", image := "img", before_script := "apk add curl" }
      (ClusterEnv.mk false [] ApiResp.ok ApiResp.ok PollOutcome.ready ApiResp.ok ApiResp.ok)
      (PollOutcome.raised "boom") PollOutcome.ready (by decide)).1
  · exact ((c10_initwait_exceptions_swallowed
      { name := "f", image := "img", before_script := "apk add curl" }
      (ClusterEnv.mk false [] ApiResp.ok ApiResp.ok PollOutcome.ready ApiResp.ok ApiResp.ok)
      (PollOutcome.raised "boom") PollOutcome.ready (by decide)).2 rfl
      (buildDeployment { name := "f", image := "img", before_script := "apk add curl" })
      (by decide)).1

end K7
